import Mathlib

/-!
Shallow embedding of `samples/extensions/patch_control_points/patch_control_points.cpp`
(class `PatchControlPoints`, a Vulkan sample built on the vkb sample framework).

Modelling conventions:
* Vulkan enum constants and handles become small inductive types carrying only the
  values this file actually uses.
* The machine floats of the sample are only ever stored and compared, never computed
  with, so they are modelled exactly by rational numbers.
* glm matrices are modelled as rational grids; their values are irrelevant to every
  claim and stay universally quantified.
* Structs whose declaring header is not among the sources (`gui_settings`, `ubo_tess`,
  `ubo_common`, `push_const_block`, the `models` / `pipeline` / `uniform_buffers`
  aggregates) carry exactly the fields the .cpp reads or writes.
* Each recorded command buffer is modelled as the list of commands recorded between
  `vkBeginCommandBuffer` and `vkEndCommandBuffer` for one framebuffer index.
-/

namespace PatchControlPoints

/-- Rational stand-in for the float vectors of glm. -/
abbrev Vec3 := ℚ × ℚ × ℚ

/-- Rational stand-in for a glm 4 by 4 matrix. -/
abbrev Mat4 := List (List ℚ)

/-- The two pipeline flavours of the sample; also indexes the matching pipeline
layouts, descriptor-set layouts and descriptor sets. -/
inductive PipeId
  | staticallyTessellation
  | dynamicallyTessellation
deriving DecidableEq, Repr

/-- The two loaded terrain models (`models.terrain_one`, `models.terrain_two`). -/
inductive ModelId
  | terrainOne
  | terrainTwo
deriving DecidableEq, Repr

/-- Primitive topology values used by the sample (only `VK_PRIMITIVE_TOPOLOGY_PATCH_LIST`). -/
inductive VkPrimitiveTopology
  | patchList
deriving DecidableEq, Repr

/-- Commands recorded into a draw command buffer by `build_command_buffers`.
`pushConstants` carries the pipeline layout and the `push_const_block.direction`
vector (stage flags `VK_SHADER_STAGE_VERTEX_BIT` and offset 0 are constant in the
source and omitted).  The constructor `setPatchControlPointsEXT` exists so that its
absence from the recorded sequence is a meaningful statement. -/
inductive VkCmd
  | beginRenderPass (framebuffer : Nat)
  | setViewport
  | setScissor
  | setPrimitiveTopologyEXT (topology : VkPrimitiveTopology)
  | setPrimitiveRestartEnableEXT (enable : Bool)
  | bindDescriptorSets (layout : PipeId) (descriptorSet : PipeId)
  | pushConstants (layout : PipeId) (direction : Vec3)
  | bindPipeline (p : PipeId)
  | setPatchControlPointsEXT (points : Nat)
  | drawModel (m : ModelId)
  | drawUI
  | endRenderPass
deriving DecidableEq, Repr

/-- Instance extensions added by the constructor. -/
def instance_extensions : List String :=
  ["VK_KHR_get_physical_device_properties2"]

/-- Device extensions added by the constructor (lines 33-34 of the .cpp). -/
def device_extensions : List String :=
  ["VK_EXT_extended_dynamic_state2", "VK_EXT_extended_dynamic_state"]

/-- Unused local constant of `build_command_buffers` (line 360). -/
def patch_control_points_triangle : Nat := 3

/-- Commands recorded for the draw command buffer whose framebuffer index is `fb`.
This is the loop body of `build_command_buffers` (lines 363-442); the call to
`vkCmdSetPatchControlPointsEXT` at line 432 is commented out in the source and
therefore absent, as are the surrounding `vkBeginCommandBuffer` /
`vkEndCommandBuffer` brackets which are modelled by the list itself.
The pushed directions are the literals of the local `directions` array
(line 357-358): `(-6.00, 0, 0)` for the first model and `(-3.95, 0, 0)` for the
second. -/
def cmdSequence (fb : Nat) : List VkCmd :=
  [ VkCmd.beginRenderPass fb,
    VkCmd.setViewport,
    VkCmd.setScissor,
    -- statically tessellation
    VkCmd.setPrimitiveTopologyEXT VkPrimitiveTopology.patchList,
    VkCmd.setPrimitiveRestartEnableEXT true,
    VkCmd.bindDescriptorSets PipeId.staticallyTessellation PipeId.staticallyTessellation,
    VkCmd.pushConstants PipeId.staticallyTessellation (-6, 0, 0),
    VkCmd.bindPipeline PipeId.staticallyTessellation,
    VkCmd.drawModel ModelId.terrainOne,
    -- dynamically tessellation
    VkCmd.setPrimitiveTopologyEXT VkPrimitiveTopology.patchList,
    VkCmd.setPrimitiveRestartEnableEXT true,
    VkCmd.bindDescriptorSets PipeId.dynamicallyTessellation PipeId.dynamicallyTessellation,
    VkCmd.pushConstants PipeId.dynamicallyTessellation (-3.95, 0, 0),
    VkCmd.bindPipeline PipeId.dynamicallyTessellation,
    VkCmd.drawModel ModelId.terrainTwo,
    -- UI
    VkCmd.drawUI,
    VkCmd.endRenderPass ]

/-- `build_command_buffers` records one command buffer per element of
`draw_cmd_buffers`, indexing `framebuffers[i]` with the running index `i`;
`n` is the common length of the two framework vectors. -/
def build_command_buffers (n : Nat) : List (List VkCmd) :=
  (List.range n).map cmdSequence

/-- Erase the framebuffer argument of a recorded command, to state that two
recorded command buffers agree on everything but the framebuffer. -/
def stripFramebuffer : VkCmd → VkCmd
  | VkCmd.beginRenderPass _ => VkCmd.beginRenderPass 0
  | c => c

/-- One draw call of a recorded command buffer together with the pipeline bound
and the push-constant direction most recently pushed when it was issued. -/
structure DrawRecord where
  model : ModelId
  boundPipeline : Option PipeId
  pushedDirection : Option Vec3
deriving DecidableEq, Repr

/-- Helper of `drawsOf`: scan the command list tracking the bound pipeline and the
last pushed direction, emitting one record per `draw_model`. -/
def drawsGo : Option PipeId → Option Vec3 → List VkCmd → List DrawRecord
  | _, _, [] => []
  | _, d, VkCmd.bindPipeline q :: rest => drawsGo (some q) d rest
  | p, _, VkCmd.pushConstants _ v :: rest => drawsGo p (some v) rest
  | p, d, VkCmd.drawModel m :: rest => ⟨m, p, d⟩ :: drawsGo p d rest
  | p, d, _ :: rest => drawsGo p d rest

/-- The draw calls of a recorded command buffer, in order. -/
def drawsOf (cmds : List VkCmd) : List DrawRecord :=
  drawsGo none none cmds

/-- The `models` aggregate: asset paths the two terrain models are loaded from. -/
structure Models where
  terrain_one : String
  terrain_two : String
deriving DecidableEq, Repr

/-- `load_assets` (lines 89-93): both models come from the identical path. -/
def load_assets : Models :=
  { terrain_one := "scenes/terrain.gltf",
    terrain_two := "scenes/terrain.gltf" }

/-- Observable events of the render loop that the claims talk about. -/
inductive Event
  | drawFrame
  | updateUniformBuffers
deriving DecidableEq, Repr

/-- The `VkSubmitInfo` fields `draw` sets before `vkQueueSubmit` (lines 102-103):
one command buffer, the one at `current_buffer`. -/
structure SubmitInfo where
  commandBufferCount : Nat
  pCommandBuffers : List Nat
deriving DecidableEq, Repr

/-- `draw` (lines 99-106): submits exactly the pre-recorded command buffer
`draw_cmd_buffers[current_buffer]`. -/
def draw (current_buffer : Nat) : SubmitInfo :=
  { commandBufferCount := 1, pCommandBuffers := [current_buffer] }

/-- `render` (lines 112-123).  Returns the event trace of the call, the submissions
made, and the (unchanged) recorded command buffers: when `prepared` is false nothing
happens; otherwise `draw` runs first and `update_uniform_buffers` is called exactly
when `camera.updated` holds.  Recording state is threaded through to make explicit
that `render` never re-records a command buffer. -/
def render (_delta_time : ℚ) (prepared : Bool) (camera_updated : Bool)
    (recorded : List (List VkCmd)) (current_buffer : Nat) :
    List Event × List SubmitInfo × List (List VkCmd) :=
  if !prepared then
    ([], [], recorded)
  else
    (Event.drawFrame :: (if camera_updated then [Event.updateUniformBuffers] else []),
     [draw current_buffer],
     recorded)

/-- `on_update_ui_overlay` (lines 660-677): under the opened Settings header, a
change of the tessellation checkbox and a change of the tessellation-factor slider
each trigger one call to `update_uniform_buffers`, checkbox first. -/
def on_update_ui_overlay (header_open : Bool) (checkbox_changed : Bool)
    (slider_changed : Bool) : List Event :=
  if header_open then
    (if checkbox_changed then [Event.updateUniformBuffers] else []) ++
    (if slider_changed then [Event.updateUniformBuffers] else [])
  else
    []

/-- The setup steps `prepare` can perform, in source order. -/
inductive PrepareStep
  | baseApiPrepare
  | cameraSetup
  | loadAssets
  | prepareUniformBuffers
  | createDescriptorPool
  | setupDescriptorSetLayout
  | createDescriptorSets
  | createPipelines
  | buildCommandBuffers
deriving DecidableEq, Repr

/-- Result of a `prepare` call: its return value, the steps performed in order,
and the final `prepared` flag. -/
structure PrepareResult where
  ret : Bool
  steps : List PrepareStep
  prepared : Bool
deriving DecidableEq, Repr

/-- `prepare` (lines 62-84): if the base `ApiVulkanSample::prepare` fails, return
false at once; otherwise run the fixed setup sequence, set `prepared` and return
true.  The four camera calls (lines 69-72) are folded into the single step
`cameraSetup`. -/
def prepare (base_prepare_ok : Bool) : PrepareResult :=
  if !base_prepare_ok then
    { ret := false, steps := [PrepareStep.baseApiPrepare], prepared := false }
  else
    { ret := true,
      steps := [PrepareStep.baseApiPrepare,
                PrepareStep.cameraSetup,
                PrepareStep.loadAssets,
                PrepareStep.prepareUniformBuffers,
                PrepareStep.createDescriptorPool,
                PrepareStep.setupDescriptorSetLayout,
                PrepareStep.createDescriptorSets,
                PrepareStep.createPipelines,
                PrepareStep.buildCommandBuffers],
      prepared := true }

/-- Camera matrices read by `update_uniform_buffers`. -/
structure CameraMatrices where
  perspective : Mat4
  view : Mat4
deriving DecidableEq, Repr

/-- The fields of `gui_settings` the .cpp reads (header not among the sources). -/
structure GuiSettings where
  tessellation : Bool
  tess_factor : ℚ
deriving DecidableEq, Repr

/-- The fields of `ubo_common` the .cpp writes (header not among the sources). -/
structure UboCommon where
  projection : Mat4
  view : Mat4
deriving DecidableEq, Repr

/-- The field of `ubo_tess` the .cpp writes (header not among the sources). -/
structure UboTess where
  tessellation_factor : ℚ
deriving DecidableEq, Repr

/-- Contents of the three GPU uniform buffers after `convert_and_update` calls. -/
structure UniformBuffersState where
  common : UboCommon
  dynamically_tessellation : UboTess
  statically_tessellation : UboTess
deriving DecidableEq, Repr

/-- `update_uniform_buffers` (lines 150-171): refresh `ubo_common` from the camera
and upload it; set `ubo_tess.tessellation_factor` from the GUI, forcing it to zero
when tessellation is disabled; upload the same `ubo_tess` to the dynamically and
the statically tessellation uniform buffers.  Returns the new CPU structs and the
new buffer contents. -/
def update_uniform_buffers (camera : CameraMatrices) (gui : GuiSettings)
    (ubo_common : UboCommon) (ubo_tess : UboTess) (bufs : UniformBuffersState) :
    UboCommon × UboTess × UniformBuffersState :=
  let ubo_common := { ubo_common with projection := camera.perspective, view := camera.view }
  let bufs := { bufs with common := ubo_common }
  let ubo_tess := { ubo_tess with tessellation_factor := gui.tess_factor }
  let ubo_tess :=
    if !gui.tessellation then
      -- Setting this to zero sets all tessellation factors to 1.0 in the shader
      { ubo_tess with tessellation_factor := 0 }
    else
      ubo_tess
  let bufs := { bufs with dynamically_tessellation := ubo_tess }
  let bufs := { bufs with statically_tessellation := ubo_tess }
  (ubo_common, ubo_tess, bufs)

/-- The physical-device feature bits this file reads or requests. -/
structure VkPhysicalDeviceFeatures where
  tessellationShader : Bool
  fillModeNonSolid : Bool
  samplerAnisotropy : Bool
deriving DecidableEq, Repr

/-- The `VkPhysicalDeviceExtendedDynamicState2FeaturesEXT` bits the sample sets. -/
structure ExtendedDynamicState2Features where
  extendedDynamicState2 : Bool
  extendedDynamicState2PatchControlPoints : Bool
deriving DecidableEq, Repr

/-- The `VkPhysicalDeviceExtendedDynamicStateFeaturesEXT` bit the sample sets. -/
structure ExtendedDynamicStateFeatures where
  extendedDynamicState : Bool
deriving DecidableEq, Repr

/-- Everything `request_gpu_features` requests on success. -/
structure RequestedGpuFeatures where
  eds2 : ExtendedDynamicState2Features
  eds : ExtendedDynamicStateFeatures
  features : VkPhysicalDeviceFeatures
deriving DecidableEq, Repr

/-- Vulkan result codes appearing in this file. -/
inductive VkResult
  | errorFeatureNotPresent
deriving DecidableEq, Repr

/-- The framework exception type thrown by this file. -/
structure VulkanException where
  code : VkResult
  msg : String
deriving DecidableEq, Repr

/-- `request_gpu_features` (lines 621-654): request both extended-dynamic-state
extension feature structs with all used bits true; then require tessellation
shaders, throwing `vkb::VulkanException` with `VK_ERROR_FEATURE_NOT_PRESENT` when
the GPU lacks them; finally mirror the optional `fillModeNonSolid` and
`samplerAnisotropy` bits into the requested features (which start cleared). -/
def request_gpu_features (gpu : VkPhysicalDeviceFeatures) :
    Except VulkanException RequestedGpuFeatures :=
  let eds2 : ExtendedDynamicState2Features :=
    { extendedDynamicState2 := true, extendedDynamicState2PatchControlPoints := true }
  let eds : ExtendedDynamicStateFeatures := { extendedDynamicState := true }
  if gpu.tessellationShader then
    let rf : VkPhysicalDeviceFeatures :=
      { tessellationShader := false, fillModeNonSolid := false, samplerAnisotropy := false }
    let rf := { rf with tessellationShader := true }
    let rf := if gpu.fillModeNonSolid then { rf with fillModeNonSolid := true } else rf
    let rf := if gpu.samplerAnisotropy then { rf with samplerAnisotropy := true } else rf
    Except.ok { eds2 := eds2, eds := eds, features := rf }
  else
    Except.error
      { code := VkResult.errorFeatureNotPresent,
        msg := "Selected GPU does not support tessellation shaders!" }

/-- How a native API result is surfaced in this file. -/
inductive ErrorSurface
  | vkCheck
  | throwVulkanException
deriving DecidableEq, Repr

/-- Every native API call of the .cpp whose result is checked, with the mechanism
used: all twelve go through the VK_CHECK macro of the framework
(lines 104, 307, 342, 367, 441, 462, 490, 507, 528, 545, 564, 593). -/
def checked_api_calls : List (String × ErrorSurface) :=
  [ ("vkQueueSubmit", ErrorSurface.vkCheck),
    ("vkCreateGraphicsPipelines.statically_tessellation", ErrorSurface.vkCheck),
    ("vkCreateGraphicsPipelines.dynamically_tessellation", ErrorSurface.vkCheck),
    ("vkBeginCommandBuffer", ErrorSurface.vkCheck),
    ("vkEndCommandBuffer", ErrorSurface.vkCheck),
    ("vkCreateDescriptorPool", ErrorSurface.vkCheck),
    ("vkCreateDescriptorSetLayout.statically_tessellation", ErrorSurface.vkCheck),
    ("vkCreatePipelineLayout.statically_tessellation", ErrorSurface.vkCheck),
    ("vkCreateDescriptorSetLayout.dynamically_tessellation", ErrorSurface.vkCheck),
    ("vkCreatePipelineLayout.dynamically_tessellation", ErrorSurface.vkCheck),
    ("vkAllocateDescriptorSets.statically_tessellation", ErrorSurface.vkCheck),
    ("vkAllocateDescriptorSets.dynamically_tessellation", ErrorSurface.vkCheck) ]

/-- The explicit throw sites of the .cpp: only line 642, inside
`request_gpu_features`, throwing `vkb::VulkanException` with
`VK_ERROR_FEATURE_NOT_PRESENT`. -/
def explicit_throw_sites : List (String × VkResult) :=
  [("request_gpu_features", VkResult.errorFeatureNotPresent)]

/-- Polygon modes used (`VK_POLYGON_MODE_FILL`, conditionally `VK_POLYGON_MODE_LINE`). -/
inductive VkPolygonMode
  | fill
  | line
deriving DecidableEq, Repr

/-- Cull modes used (`VK_CULL_MODE_BACK_BIT`, later flipped to `VK_CULL_MODE_NONE`). -/
inductive VkCullMode
  | back
  | none
deriving DecidableEq, Repr

/-- Front-face value used (`VK_FRONT_FACE_COUNTER_CLOCKWISE`). -/
inductive VkFrontFace
  | counterClockwise
deriving DecidableEq, Repr

/-- Depth compare op used (`VK_COMPARE_OP_GREATER`, reversed depth buffer). -/
inductive VkCompareOp
  | greater
deriving DecidableEq, Repr

/-- Blend op used (`VK_BLEND_OP_ADD`, also the zero default of the initializer). -/
inductive VkBlendOp
  | add
deriving DecidableEq, Repr

/-- Blend factors used. -/
inductive VkBlendFactor
  | zero
  | one
  | srcAlpha
  | oneMinusSrcAlpha
deriving DecidableEq, Repr

/-- Shader stages used. -/
inductive VkShaderStageBit
  | vertex
  | fragment
  | tessellationControl
  | tessellationEvaluation
deriving DecidableEq, Repr

/-- Vertex format used (`VK_FORMAT_R32G32B32_SFLOAT`). -/
inductive VkFormat
  | r32g32b32Sfloat
deriving DecidableEq, Repr

/-- Vertex input rate used (`VK_VERTEX_INPUT_RATE_VERTEX`). -/
inductive VkVertexInputRate
  | vertex
deriving DecidableEq, Repr

/-- Dynamic states that appear in the file (the third one only in commented-out
code, kept so its absence is a meaningful statement). -/
inductive VkDynamicStateKind
  | viewport
  | scissor
  | patchControlPointsEXT
deriving DecidableEq, Repr

/-- Symbolic byte expressions (`sizeof` / `offsetof` on the framework Vertex type,
whose definition is outside the sources). -/
inductive SizeExpr
  | zeroOffset
  | sizeofVertex
  | offsetofVertexNormal
deriving DecidableEq, Repr

/-- `VkPipelineInputAssemblyStateCreateInfo` fields used. -/
structure InputAssemblyState where
  topology : VkPrimitiveTopology
  primitiveRestartEnable : Bool
deriving DecidableEq, Repr

/-- `VkPipelineRasterizationStateCreateInfo` fields used. -/
structure RasterizationState where
  polygonMode : VkPolygonMode
  cullMode : VkCullMode
  frontFace : VkFrontFace
  depthBiasConstantFactor : ℚ
  depthBiasSlopeFactor : ℚ
deriving DecidableEq, Repr

/-- `VkPipelineColorBlendAttachmentState` fields used; `colorWriteMask` is the RGBA
bit mask as a number (R=1, G=2, B=4, A=8). -/
structure BlendAttachmentState where
  colorWriteMask : Nat
  blendEnable : Bool
  colorBlendOp : VkBlendOp
  srcColorBlendFactor : VkBlendFactor
  dstColorBlendFactor : VkBlendFactor
  alphaBlendOp : VkBlendOp
  srcAlphaBlendFactor : VkBlendFactor
  dstAlphaBlendFactor : VkBlendFactor
deriving DecidableEq, Repr

/-- `VkPipelineColorBlendStateCreateInfo` fields used. -/
structure ColorBlendState where
  attachments : List BlendAttachmentState
deriving DecidableEq, Repr

/-- `VkPipelineDepthStencilStateCreateInfo` fields used. -/
structure DepthStencilState where
  depthTestEnable : Bool
  depthWriteEnable : Bool
  depthCompareOp : VkCompareOp
deriving DecidableEq, Repr

/-- `VkPipelineViewportStateCreateInfo` fields used. -/
structure ViewportState where
  viewportCount : Nat
  scissorCount : Nat
deriving DecidableEq, Repr

/-- `VkPipelineMultisampleStateCreateInfo` fields used. -/
structure MultisampleState where
  rasterizationSamples : Nat
deriving DecidableEq, Repr

/-- `VkPipelineTessellationStateCreateInfo` fields used. -/
structure TessellationState where
  patchControlPoints : Nat
deriving DecidableEq, Repr

/-- `VkVertexInputBindingDescription` fields used. -/
structure VertexInputBinding where
  binding : Nat
  stride : SizeExpr
  inputRate : VkVertexInputRate
deriving DecidableEq, Repr

/-- `VkVertexInputAttributeDescription` fields used (argument order of the vkb
initializer: binding, location, format, offset). -/
structure VertexInputAttribute where
  binding : Nat
  location : Nat
  format : VkFormat
  offset : SizeExpr
deriving DecidableEq, Repr

/-- `VkPipelineVertexInputStateCreateInfo` fields used. -/
structure VertexInputState where
  bindings : List VertexInputBinding
  attributes : List VertexInputAttribute
deriving DecidableEq, Repr

/-- A shader stage as produced by `load_shader`. -/
structure ShaderStageInfo where
  file : String
  stage : VkShaderStageBit
deriving DecidableEq, Repr

/-- `load_shader` of the framework: identified by its path and stage bit. -/
def load_shader (file : String) (stage : VkShaderStageBit) : ShaderStageInfo :=
  { file := file, stage := stage }

/-- Snapshot of the `VkGraphicsPipelineCreateInfo` and the state structs it points
at, at the moment a `vkCreateGraphicsPipelines` call dereferences them. -/
structure GraphicsPipelineCreateInfo where
  inputAssembly : InputAssemblyState
  rasterization : RasterizationState
  colorBlend : ColorBlendState
  multisample : MultisampleState
  viewport : ViewportState
  depthStencil : DepthStencilState
  dynamicStates : List VkDynamicStateKind
  vertexInput : VertexInputState
  tessellation : Option TessellationState
  stages : List ShaderStageInfo
  layout : Option PipeId
  renderPassSet : Bool
deriving DecidableEq, Repr

/-- Pipeline-cache argument of a `vkCreateGraphicsPipelines` call: the member
`pipeline_cache` or `VK_NULL_HANDLE`. -/
inductive CacheHandle
  | pipelineCache
  | nullHandle
deriving DecidableEq, Repr

/-- One `vkCreateGraphicsPipelines` call: cache handle passed, create info seen,
and the member the resulting pipeline is stored into. -/
structure PipelineCreateCall where
  cache : CacheHandle
  info : GraphicsPipelineCreateInfo
  target : PipeId
deriving DecidableEq, Repr

/-- `create_pipelines` (lines 177-343), transcribed mutation by mutation; the
create info holds pointers to the local state structs, so each call snapshots
their current values.  The commented-out push of
`VK_DYNAMIC_STATE_PATCH_CONTROL_POINTS_EXT` (lines 316-318) is absent.  The
`fillModeNonSolid` device feature decides the wireframe polygon mode, queried
identically before both calls. -/
def create_pipelines (fillModeNonSolid : Bool) : List PipelineCreateCall :=
  let input_assembly_state : InputAssemblyState :=
    { topology := VkPrimitiveTopology.patchList, primitiveRestartEnable := false }
  let rasterization_state : RasterizationState :=
    { polygonMode := VkPolygonMode.fill, cullMode := VkCullMode.back,
      frontFace := VkFrontFace.counterClockwise,
      depthBiasConstantFactor := 0, depthBiasSlopeFactor := 0 }
  let rasterization_state :=
    { rasterization_state with depthBiasConstantFactor := 1, depthBiasSlopeFactor := 1 }
  let blend_attachment_state : BlendAttachmentState :=
    { colorWriteMask := 15, blendEnable := true,
      colorBlendOp := VkBlendOp.add,
      srcColorBlendFactor := VkBlendFactor.zero, dstColorBlendFactor := VkBlendFactor.zero,
      alphaBlendOp := VkBlendOp.add,
      srcAlphaBlendFactor := VkBlendFactor.zero, dstAlphaBlendFactor := VkBlendFactor.zero }
  let blend_attachment_state :=
    { blend_attachment_state with
      colorBlendOp := VkBlendOp.add,
      srcColorBlendFactor := VkBlendFactor.srcAlpha,
      dstColorBlendFactor := VkBlendFactor.oneMinusSrcAlpha,
      alphaBlendOp := VkBlendOp.add,
      srcAlphaBlendFactor := VkBlendFactor.one,
      dstAlphaBlendFactor := VkBlendFactor.zero }
  let color_blend_state : ColorBlendState := { attachments := [blend_attachment_state] }
  let depth_stencil_state : DepthStencilState :=
    { depthTestEnable := true, depthWriteEnable := true,
      depthCompareOp := VkCompareOp.greater }
  let viewport_state : ViewportState := { viewportCount := 1, scissorCount := 1 }
  let multisample_state : MultisampleState := { rasterizationSamples := 1 }
  let tessellation_state : TessellationState := { patchControlPoints := 3 }
  let dynamic_state_enables : List VkDynamicStateKind :=
    [VkDynamicStateKind.viewport, VkDynamicStateKind.scissor]
  let vertex_input_bindings : List VertexInputBinding :=
    [{ binding := 0, stride := SizeExpr.sizeofVertex, inputRate := VkVertexInputRate.vertex }]
  let vertex_input_attributes : List VertexInputAttribute :=
    [{ binding := 0, location := 0, format := VkFormat.r32g32b32Sfloat,
       offset := SizeExpr.zeroOffset },
     { binding := 0, location := 1, format := VkFormat.r32g32b32Sfloat,
       offset := SizeExpr.offsetofVertexNormal }]
  let vertex_input_state : VertexInputState :=
    { bindings := vertex_input_bindings, attributes := vertex_input_attributes }
  -- first tessellation list: setup for the statically_tessellation pipeline
  let layout : Option PipeId := some PipeId.staticallyTessellation
  let input_assembly_state :=
    { input_assembly_state with topology := VkPrimitiveTopology.patchList }
  -- wireframe mode
  let rasterization_state :=
    if fillModeNonSolid then
      { rasterization_state with polygonMode := VkPolygonMode.line }
    else rasterization_state
  let shader_stages : List ShaderStageInfo :=
    [load_shader "patch_control_points/tess.vert" VkShaderStageBit.vertex,
     load_shader "patch_control_points/tess.frag" VkShaderStageBit.fragment,
     load_shader "patch_control_points/tess.tesc" VkShaderStageBit.tessellationControl,
     load_shader "patch_control_points/tess.tese" VkShaderStageBit.tessellationEvaluation]
  -- enable depth test and write
  let depth_stencil_state :=
    { depth_stencil_state with depthWriteEnable := true, depthTestEnable := true }
  -- flip cull mode
  let rasterization_state := { rasterization_state with cullMode := VkCullMode.none }
  let call1 : PipelineCreateCall :=
    { cache := CacheHandle.pipelineCache,
      target := PipeId.staticallyTessellation,
      info :=
        { inputAssembly := input_assembly_state,
          rasterization := rasterization_state,
          colorBlend := color_blend_state,
          multisample := multisample_state,
          viewport := viewport_state,
          depthStencil := depth_stencil_state,
          dynamicStates := dynamic_state_enables,
          vertexInput := vertex_input_state,
          tessellation := some tessellation_state,
          stages := shader_stages,
          layout := layout,
          renderPassSet := true } }
  -- second tessellation list: setup for the dynamically_tessellation pipeline
  let layout : Option PipeId := some PipeId.dynamicallyTessellation
  let input_assembly_state :=
    { input_assembly_state with topology := VkPrimitiveTopology.patchList }
  -- wireframe mode
  let rasterization_state :=
    if fillModeNonSolid then
      { rasterization_state with polygonMode := VkPolygonMode.line }
    else rasterization_state
  let shader_stages : List ShaderStageInfo :=
    [load_shader "patch_control_points/tess.vert" VkShaderStageBit.vertex,
     load_shader "patch_control_points/tess.frag" VkShaderStageBit.fragment,
     load_shader "patch_control_points/tess.tesc" VkShaderStageBit.tessellationControl,
     load_shader "patch_control_points/tess.tese" VkShaderStageBit.tessellationEvaluation]
  -- enable depth test and write
  let depth_stencil_state :=
    { depth_stencil_state with depthWriteEnable := true, depthTestEnable := true }
  -- flip cull mode
  let rasterization_state := { rasterization_state with cullMode := VkCullMode.none }
  let call2 : PipelineCreateCall :=
    { cache := CacheHandle.nullHandle,
      target := PipeId.dynamicallyTessellation,
      info :=
        { inputAssembly := input_assembly_state,
          rasterization := rasterization_state,
          colorBlend := color_blend_state,
          multisample := multisample_state,
          viewport := viewport_state,
          depthStencil := depth_stencil_state,
          dynamicStates := dynamic_state_enables,
          vertexInput := vertex_input_state,
          tessellation := some tessellation_state,
          stages := shader_stages,
          layout := layout,
          renderPassSet := true } }
  [call1, call2]

/-- Descriptor types appearing in the pool sizes and the writes. -/
inductive VkDescriptorType
  | uniformBuffer
  | combinedImageSampler
deriving DecidableEq, Repr

/-- Pool sizes of `create_descriptor_pool` (lines 451-454). -/
def pool_sizes : List (VkDescriptorType × Nat) :=
  [(VkDescriptorType.uniformBuffer, 5),
   (VkDescriptorType.combinedImageSampler, 1)]

/-- `VkDescriptorPoolCreateInfo` fields used. -/
structure DescriptorPoolCreateInfo where
  poolSizes : List (VkDescriptorType × Nat)
  maxSets : Nat
deriving DecidableEq, Repr

/-- `create_descriptor_pool` (lines 449-466): pool for 5 uniform-buffer
descriptors, 1 combined-image-sampler descriptor and at most 3 sets. -/
def create_descriptor_pool : DescriptorPoolCreateInfo :=
  { poolSizes := pool_sizes, maxSets := 3 }

/-- The three uniform buffers a descriptor write can point at. -/
inductive BufferId
  | common
  | dynamicallyTessellation
  | staticallyTessellation
deriving DecidableEq, Repr

/-- Operations of `create_descriptor_sets` against the descriptor pool. -/
inductive DescriptorOp
  | allocateSet (layout : PipeId)
  | writeSet (descriptorSet : PipeId) (ty : VkDescriptorType) (binding : Nat) (buffer : BufferId)
deriving DecidableEq, Repr

/-- `create_descriptor_sets` (lines 555-615) as its sequence of pool operations:
allocate the statically_tessellation set and write its two uniform-buffer
descriptors (common at binding 0, statically tessellation at binding 1), then the
same for the dynamically_tessellation set. -/
def create_descriptor_sets : List DescriptorOp :=
  [ DescriptorOp.allocateSet PipeId.staticallyTessellation,
    DescriptorOp.writeSet PipeId.staticallyTessellation VkDescriptorType.uniformBuffer 0
      BufferId.common,
    DescriptorOp.writeSet PipeId.staticallyTessellation VkDescriptorType.uniformBuffer 1
      BufferId.staticallyTessellation,
    DescriptorOp.allocateSet PipeId.dynamicallyTessellation,
    DescriptorOp.writeSet PipeId.dynamicallyTessellation VkDescriptorType.uniformBuffer 0
      BufferId.common,
    DescriptorOp.writeSet PipeId.dynamicallyTessellation VkDescriptorType.uniformBuffer 1
      BufferId.dynamicallyTessellation ]

/-- Number of descriptor sets a sequence of pool operations allocates. -/
def allocated_set_count (ops : List DescriptorOp) : Nat :=
  (ops.filter fun op =>
    match op with
    | DescriptorOp.allocateSet _ => true
    | _ => false).length

/-- Number of descriptors of type `t` a sequence of pool operations consumes. -/
def written_descriptor_count (t : VkDescriptorType) (ops : List DescriptorOp) : Nat :=
  (ops.filter fun op =>
    match op with
    | DescriptorOp.writeSet _ ty _ _ => ty == t
    | _ => false).length

/-- Capacity the pool declares for descriptor type `t`. -/
def pool_capacity (t : VkDescriptorType) : Nat :=
  (create_descriptor_pool.poolSizes.filter fun p => p.1 == t).foldl
    (fun acc p => acc + p.2) 0

/-- C1: the constructor registers both extended-dynamic-state device extensions,
`request_gpu_features` requests extendedDynamicState2,
extendedDynamicState2PatchControlPoints and extendedDynamicState all true, and the
recorded command buffer (evaluated at framebuffer index 0) contains the
extended-dynamic-state topology and primitive-restart commands — but it never
contains the patch-control-points command, whose call at line 432 is commented out,
contradicting the claim that command recording employs it. -/
theorem C1_patch_control_points_command_not_recorded :
    device_extensions = ["VK_EXT_extended_dynamic_state2", "VK_EXT_extended_dynamic_state"]
  ∧ VkCmd.setPrimitiveTopologyEXT VkPrimitiveTopology.patchList ∈ cmdSequence 0
  ∧ VkCmd.setPrimitiveRestartEnableEXT true ∈ cmdSequence 0
  ∧ ((cmdSequence 0).all fun c =>
      match c with
      | VkCmd.setPatchControlPointsEXT _ => false
      | _ => true) = true
  ∧ (match request_gpu_features ⟨true, true, true⟩ with
     | Except.ok r =>
         r.eds2.extendedDynamicState2 = true
       ∧ r.eds2.extendedDynamicState2PatchControlPoints = true
       ∧ r.eds.extendedDynamicState = true
     | Except.error _ => False) := by
  refine ⟨rfl, ?_, ?_, rfl, ?_⟩
  · decide
  · decide
  · exact ⟨rfl, rfl, rfl⟩

/-- C2: both terrain models are loaded from the identical asset path
"scenes/terrain.gltf", `create_pipelines` creates exactly the two tessellation
pipelines (statically then dynamically, both with 3 patch control points), and
every recorded command buffer draws terrain_one with the statically_tessellation
pipeline bound and direction (-6.00, 0, 0) pushed, then terrain_two with the
dynamically_tessellation pipeline bound and direction (-3.95, 0, 0) pushed. -/
theorem C2_same_terrain_two_pipelines_side_by_side (fb : Nat) (fm : Bool) :
    load_assets.terrain_one = "scenes/terrain.gltf"
  ∧ load_assets.terrain_two = "scenes/terrain.gltf"
  ∧ (create_pipelines fm).map PipelineCreateCall.target
      = [PipeId.staticallyTessellation, PipeId.dynamicallyTessellation]
  ∧ ((create_pipelines fm).map fun c => c.info.tessellation)
      = [some { patchControlPoints := 3 }, some { patchControlPoints := 3 }]
  ∧ drawsOf (cmdSequence fb)
      = [ { model := ModelId.terrainOne,
            boundPipeline := some PipeId.staticallyTessellation,
            pushedDirection := some (-6, 0, 0) },
          { model := ModelId.terrainTwo,
            boundPipeline := some PipeId.dynamicallyTessellation,
            pushedDirection := some (-3.95, 0, 0) } ] := by
  cases fm <;> exact ⟨rfl, rfl, rfl, rfl, rfl⟩

/-- C3: with `prepared` true, `render` first draws the frame and then calls
`update_uniform_buffers` exactly when `camera.updated` is set; in
`on_update_ui_overlay` (with the Settings header open) a change of the tessellation
checkbox and a change of the tessellation-factor slider each trigger one call to
`update_uniform_buffers`. -/
theorem C3_uniform_updates_on_camera_and_ui (dt : ℚ) (cu cb sl : Bool)
    (R : List (List VkCmd)) (curb : Nat) :
    (render dt true cu R curb).1
      = Event.drawFrame :: (if cu then [Event.updateUniformBuffers] else [])
  ∧ ((Event.updateUniformBuffers ∈ (render dt true cu R curb).1) ↔ cu = true)
  ∧ (on_update_ui_overlay true cb sl).count Event.updateUniformBuffers
      = (if cb then 1 else 0) + (if sl then 1 else 0) := by
  cases cu <;> cases cb <;> cases sl <;>
    exact ⟨rfl, by simp [render, draw], by decide⟩

/-- C4: `prepare` is a fixed linear sequence: on base success it performs the nine
steps in source order, sets `prepared` and returns true; on base failure it returns
false having performed none of the remaining steps. -/
theorem C4_prepare_linear_order :
    prepare true
      = { ret := true,
          steps := [PrepareStep.baseApiPrepare,
                    PrepareStep.cameraSetup,
                    PrepareStep.loadAssets,
                    PrepareStep.prepareUniformBuffers,
                    PrepareStep.createDescriptorPool,
                    PrepareStep.setupDescriptorSetLayout,
                    PrepareStep.createDescriptorSets,
                    PrepareStep.createPipelines,
                    PrepareStep.buildCommandBuffers],
          prepared := true }
  ∧ prepare false
      = { ret := false, steps := [PrepareStep.baseApiPrepare], prepared := false } :=
  ⟨rfl, rfl⟩

/-- C5: the command buffers are fixed after preparation: `build_command_buffers`
records for every index `i` the same command sequence up to the framebuffer, whose
index is `i`; `render` (prepared or not) never changes the recorded buffers; and
each `draw` submits exactly one pre-recorded command buffer, the one at
`current_buffer`. -/
theorem C5_command_buffers_fixed_after_prepare (n i j current_buffer : Nat)
    (cu : Bool) (R : List (List VkCmd)) (dt : ℚ) :
    (build_command_buffers n)[i]? = (if i < n then some (cmdSequence i) else none)
  ∧ (cmdSequence i).map stripFramebuffer = (cmdSequence j).map stripFramebuffer
  ∧ (cmdSequence i).head? = some (VkCmd.beginRenderPass i)
  ∧ (render dt true cu R current_buffer).2.2 = R
  ∧ (render dt false cu R current_buffer).2.2 = R
  ∧ (render dt true cu R current_buffer).2.1 = [draw current_buffer]
  ∧ (draw current_buffer).commandBufferCount = 1
  ∧ (draw current_buffer).pCommandBuffers = [current_buffer] := by
  refine ⟨?_, rfl, rfl, rfl, rfl, rfl, rfl, rfl⟩
  rcases Nat.lt_or_ge i n with h | h
  · simp [build_command_buffers, List.getElem?_map, List.getElem?_range h, h]
  · simp [build_command_buffers, List.getElem?_eq_none, Nat.not_lt.mpr h, h]

/-- C6: every native API call whose result is checked in this file goes through the
VK_CHECK macro of the framework; the single explicit throw site is in
`request_gpu_features` and raises `vkb::VulkanException` with
`VK_ERROR_FEATURE_NOT_PRESENT`, thrown if and only if the selected GPU does not
support tessellation shaders. -/
theorem C6_errors_via_vk_check_and_single_throw (gpu : VkPhysicalDeviceFeatures) :
    (checked_api_calls.all fun c => c.2 == ErrorSurface.vkCheck) = true
  ∧ explicit_throw_sites = [("request_gpu_features", VkResult.errorFeatureNotPresent)]
  ∧ (match request_gpu_features gpu with
     | Except.ok _ => gpu.tessellationShader = true
     | Except.error e =>
         gpu.tessellationShader = false
       ∧ e = { code := VkResult.errorFeatureNotPresent,
               msg := "Selected GPU does not support tessellation shaders!" }) := by
  obtain ⟨ts, fm, sa⟩ := gpu
  cases ts <;> cases fm <;> cases sa <;>
    refine ⟨by decide, rfl, ?_⟩ <;>
    first
      | exact rfl
      | exact ⟨rfl, rfl⟩

/-- C8: every call of `update_uniform_buffers` writes the tessellation factor
`gui_settings.tess_factor` when tessellation is enabled and 0 when it is disabled,
and writes the identical `ubo_tess` value to the dynamically and the statically
tessellation uniform buffers, which therefore hold equal contents afterwards. -/
theorem C8_tess_factor_written_identically (camera : CameraMatrices)
    (gui : GuiSettings) (uc : UboCommon) (ut : UboTess) (bufs : UniformBuffersState) :
    ((update_uniform_buffers camera gui uc ut bufs).2.2).dynamically_tessellation
      = ((update_uniform_buffers camera gui uc ut bufs).2.2).statically_tessellation
  ∧ ((update_uniform_buffers camera gui uc ut bufs).2.2).dynamically_tessellation.tessellation_factor
      = (if gui.tessellation then gui.tess_factor else 0)
  ∧ ((update_uniform_buffers camera gui uc ut bufs).2.2).statically_tessellation.tessellation_factor
      = (if gui.tessellation then gui.tess_factor else 0) := by
  obtain ⟨tess, tf⟩ := gui
  cases tess <;> exact ⟨rfl, rfl, rfl⟩

/-- C9: the two `vkCreateGraphicsPipelines` calls see identical pipeline state —
the same four shader stages, tessellation state of 3 patch control points, dynamic
states viewport and scissor only, and the same input-assembly, rasterization,
blend and depth-stencil settings — and differ only in the pipeline layout and the
pipeline-cache handle (member cache versus VK_NULL_HANDLE). -/
theorem C9_pipelines_identical_modulo_layout_and_cache (fm : Bool) :
    ∃ c1 c2, create_pipelines fm = [c1, c2]
  ∧ c1.info.stages
      = [ { file := "patch_control_points/tess.vert", stage := VkShaderStageBit.vertex },
          { file := "patch_control_points/tess.frag", stage := VkShaderStageBit.fragment },
          { file := "patch_control_points/tess.tesc", stage := VkShaderStageBit.tessellationControl },
          { file := "patch_control_points/tess.tese", stage := VkShaderStageBit.tessellationEvaluation } ]
  ∧ c1.info.tessellation = some { patchControlPoints := 3 }
  ∧ c1.info.dynamicStates = [VkDynamicStateKind.viewport, VkDynamicStateKind.scissor]
  ∧ c1.info.layout = some PipeId.staticallyTessellation
  ∧ c2.info = { c1.info with layout := some PipeId.dynamicallyTessellation }
  ∧ c1.cache = CacheHandle.pipelineCache
  ∧ c2.cache = CacheHandle.nullHandle := by
  cases fm <;> exact ⟨_, _, rfl, rfl, rfl, rfl, rfl, rfl, rfl, rfl⟩

/-- C10: descriptor allocations never exceed the pool: the pool is sized for 5
uniform-buffer descriptors, 1 combined-image-sampler descriptor and at most 3
sets; `create_descriptor_sets` allocates exactly 2 sets and writes 2
uniform-buffer descriptors into each, consuming 4 uniform-buffer and 0 sampler
descriptors, all within capacity. -/
theorem C10_descriptor_pool_capacity_respected :
    create_descriptor_pool.maxSets = 3
  ∧ pool_capacity VkDescriptorType.uniformBuffer = 5
  ∧ pool_capacity VkDescriptorType.combinedImageSampler = 1
  ∧ allocated_set_count create_descriptor_sets = 2
  ∧ written_descriptor_count VkDescriptorType.uniformBuffer create_descriptor_sets = 4
  ∧ written_descriptor_count VkDescriptorType.combinedImageSampler create_descriptor_sets = 0
  ∧ allocated_set_count create_descriptor_sets ≤ create_descriptor_pool.maxSets
  ∧ written_descriptor_count VkDescriptorType.uniformBuffer create_descriptor_sets
      ≤ pool_capacity VkDescriptorType.uniformBuffer
  ∧ written_descriptor_count VkDescriptorType.combinedImageSampler create_descriptor_sets
      ≤ pool_capacity VkDescriptorType.combinedImageSampler := by
  decide

end PatchControlPoints
